import Mathlib

/-
Verification of the Extraction-Parse-Fallback-Synthesis pipeline of the
github_repo_analyzer repository.

The Python sources are shallowly embedded as executable Lean definitions:

  * JSON values decoded by the standard-library loader are modelled by the
    inductive type `Json`; Python dictionaries become association lists.
  * The external loader `json.loads` is kept abstract: functions that call it
    take a `loads` argument.  At every call site of the source the loader is
    applied to a string that begins with an opening brace, for which the
    standard library returns a dictionary or fails; hence the argument type
    `List Char → Option (List (String × Json))`.
  * `datetime.now()` is modelled by an explicit `now : Nat` argument threaded
    to every constructor that stamps `created_at`.
  * Response streams of the generative-text collaborator are modelled as lists
    of `Except Unit Msg`: an `Except.error` element is the point at which the
    stream raises.  A `try/except` region of the source becomes an
    `Except Unit` computation; a function returning `None` on caught errors
    becomes an `Option`-valued function.
-/

/-- A decoded JSON value (the result of the standard-library loader). -/
inductive Json where
  | null
  | bool (b : Bool)
  | num (n : Int)
  | str (s : String)
  | arr (elems : List Json)
  | obj (entries : List (String × Json))

/-- Python `d.get(k, dflt)` on a decoded JSON dictionary. -/
def pyGet (entries : List (String × Json)) (k : String) (dflt : Json) : Json :=
  match entries.lookup k with
  | some v => v
  | none => dflt

/-- Python iteration `for x in v` over a decoded JSON value: lists yield their
elements, strings yield their characters (as one-character strings),
dictionaries yield their keys; iterating any other value raises `TypeError`,
modelled by `none`. -/
def pyIter : Json → Option (List Json)
  | .arr xs => some xs
  | .str s => some (s.toList.map fun c => Json.str (String.singleton c))
  | .obj kvs => some (kvs.map fun kv => Json.str kv.fst)
  | _ => none

/-- Python slicing `v[:n]` on a decoded JSON value: lists and strings slice,
anything else raises `TypeError`, modelled by `none`. -/
def pySlice : Json → Nat → Option (List Json)
  | .arr xs, n => some (xs.take n)
  | .str s, n => some ((s.toList.map fun c => Json.str (String.singleton c)).take n)
  | _, _ => none

/-- Enum `StoryPriority` from types.py. -/
inductive StoryPriority where
  | low
  | medium
  | high
  | critical
deriving DecidableEq

/-- Canonical string value of each `StoryPriority` member (types.py). -/
def StoryPriority.value : StoryPriority → String
  | .low => "Low"
  | .medium => "Medium"
  | .high => "High"
  | .critical => "Critical"

/-- Python `StoryPriority(v)`: value lookup in the enum, `none` models the
`ValueError` raised on any argument that is not a canonical value. -/
def StoryPriority.fromValue : Json → Option StoryPriority
  | .str "Low" => some .low
  | .str "Medium" => some .medium
  | .str "High" => some .high
  | .str "Critical" => some .critical
  | _ => none

/-- Enum `StoryEffort` from types.py. -/
inductive StoryEffort where
  | small
  | medium
  | large
  | extraLarge
deriving DecidableEq

/-- Canonical string value of each `StoryEffort` member (types.py). -/
def StoryEffort.value : StoryEffort → String
  | .small => "Small"
  | .medium => "Medium"
  | .large => "Large"
  | .extraLarge => "Extra Large"

/-- Python `StoryEffort(v)`: value lookup in the enum, `none` models the
`ValueError` raised on any argument that is not a canonical value. -/
def StoryEffort.fromValue : Json → Option StoryEffort
  | .str "Small" => some .small
  | .str "Medium" => some .medium
  | .str "Large" => some .large
  | .str "Extra Large" => some .extraLarge
  | _ => none

/-- Dataclass `AcceptanceCriterion` from types.py. -/
structure AcceptanceCriterion where
  description : String
  completed : Bool := false
deriving DecidableEq

/-- Dataclass `UserStory` from types.py.  The dataclass does not validate
field types, so `title`, `description` and the elements of `tags` carry the
decoded JSON values the parser stored; `created_at` holds the clock value at
construction time (`datetime.now`). -/
structure UserStory where
  id : Nat
  title : Json
  description : Json
  acceptance_criteria : List AcceptanceCriterion
  priority : StoryPriority
  effort : StoryEffort
  tags : List Json
  created_at : Nat

/-- Function `_parse_user_story` from claude_analyzer.py (lines 207-252); the function
at enhanced_analyzer.py lines 399-437 is textually the same logic.  The outer
`except Exception` of the source is modelled by the `none` results: a
non-dictionary argument raises `AttributeError` at `story_data.get`, and a
non-iterable `acceptance_criteria` value raises `TypeError` in the list
comprehension; both are caught and yield `None`.  The `except ValueError`
around each enum lookup becomes the `Option.getD`-style match on
`fromValue`. -/
def _parse_user_story (story_data : Json) (story_id : Nat) (now : Nat) : Option UserStory :=
  match story_data with
  | .obj kvs =>
    match pyIter (pyGet kvs "acceptance_criteria" (.arr [])) with
    | none => none
    | some items =>
      let acceptance_criteria := items.filterMap fun j =>
        match j with
        | .str s => some { description := s, completed := false }
        | _ => none
      let priority :=
        match StoryPriority.fromValue (pyGet kvs "priority" (.str "Medium")) with
        | some p => p
        | none => .medium
      let effort :=
        match StoryEffort.fromValue (pyGet kvs "effort" (.str "Medium")) with
        | some e => e
        | none => .medium
      let tags :=
        match pyGet kvs "tags" (.arr []) with
        | .arr xs => xs
        | _ => []
      some
        { id := story_id
          title := pyGet kvs "title" (.str ("User Story " ++ toString story_id))
          description := pyGet kvs "description" (.str "")
          acceptance_criteria := acceptance_criteria
          priority := priority
          effort := effort
          tags := tags
          created_at := now }
  | _ => none

/-- Index of the first occurrence of `c` (Python `str.find`, with `none` for
the -1 not-found result). -/
def findIdxOf (c : Char) : List Char → Option Nat
  | [] => none
  | x :: xs => if x = c then some 0 else (findIdxOf c xs).map (· + 1)

/-- Index of the last occurrence of `c` (Python `str.rfind`, with `none` for
the -1 not-found result). -/
def rfindIdxOf (c : Char) : List Char → Option Nat
  | [] => none
  | x :: xs =>
    match rfindIdxOf c xs with
    | some i => some (i + 1)
    | none => if x = c then some 0 else none

/-- Function `_extract_json_from_text` from claude_analyzer.py (lines 192-205),
generic over the standard-library loader `loads` (whose parse failure —
`json.JSONDecodeError`/`ValueError`, caught by the source — is its `none`
result).  `text[start_idx:end_idx + 1]` becomes `(text.drop s).take (e + 1 - s)`. -/
def _extract_json_from_text {α : Type} (loads : List Char → Option α) (text : List Char) :
    Option α :=
  match findIdxOf '{' text, rfindIdxOf '}' text with
  | some s, some e => if e > s then loads ((text.drop s).take (e + 1 - s)) else none
  | some _, none => none
  | none, _ => none

/-- A content block of an assistant response event (`TextBlock`,
`ToolUseBlock`, `ToolResultBlock` of the collaborator SDK); only text blocks
carry data the engine reads. -/
inductive Block where
  | text (s : List Char)
  | toolUse
  | toolResult

/-- One streamed response event: an `AssistantMessage` with its content
blocks, or any other message kind (ignored by the engine). -/
inductive Msg where
  | assistant (content : List Block)
  | other

/-- The abstract standard-library loader: applied only to strings that begin
with an opening brace, so success always yields a dictionary. -/
abbrev Loads := List Char → Option (List (String × Json))

/-- One step of the story-accumulation loop of `_generate_user_stories`
(claude_analyzer.py lines 164-172): parse one payload entry, append on
success and advance the sequence id, skip otherwise. -/
def addStory (now : Nat) (st : List UserStory × Nat) (d : Json) : List UserStory × Nat :=
  match _parse_user_story d st.2 now with
  | some us => (st.1 ++ [us], st.2 + 1)
  | none => st

/-- Processing of one content block inside the `try` of
`_generate_user_stories` (claude_analyzer.py lines 158-180).  The Python
truthiness test `json_content and "user_stories" in json_content` requires a
non-empty dictionary containing the key; `stories_data[:max_stories]` raises
`TypeError` when the stored value is neither a list nor a string, which
aborts the whole `try` (modelled by `Except.error`). -/
def processBlock (loads : Loads) (now maxStories : Nat) (st : List UserStory × Nat)
    (b : Block) : Except Unit (List UserStory × Nat) :=
  match b with
  | .text s =>
    match _extract_json_from_text loads s with
    | some kvs =>
      if !kvs.isEmpty && (kvs.lookup "user_stories").isSome then
        match pySlice (pyGet kvs "user_stories" .null) maxStories with
        | some items => .ok (items.foldl (addStory now) st)
        | none => .error ()
      else .ok st
    | none => .ok st
  | .toolUse => .ok st
  | .toolResult => .ok st

/-- Processing of one streamed message inside the `try` of
`_generate_user_stories`: only assistant messages are read. -/
def processMsg (loads : Loads) (now maxStories : Nat) (st : List UserStory × Nat)
    (m : Msg) : Except Unit (List UserStory × Nat) :=
  match m with
  | .assistant blocks => blocks.foldlM (processBlock loads now maxStories) st
  | .other => .ok st

/-- The five generic fallback payload entries of `_generate_fallback_stories`
(claude_analyzer.py lines 259-290), in catalog order. -/
def fallbackCatalog : List Json :=
  [ .obj
      [ ("title", .str "User Authentication")
      , ("description", .str "As a user, I want to securely log in to the application, so that I can access my personalized content and features.")
      , ("priority", .str "High")
      , ("effort", .str "Medium") ]
  , .obj
      [ ("title", .str "Data Management")
      , ("description", .str "As a user, I want to create, read, update, and delete my data, so that I can manage my information effectively.")
      , ("priority", .str "High")
      , ("effort", .str "Medium") ]
  , .obj
      [ ("title", .str "User Interface")
      , ("description", .str "As a user, I want an intuitive and responsive user interface, so that I can easily navigate and use the application.")
      , ("priority", .str "Medium")
      , ("effort", .str "Large") ]
  , .obj
      [ ("title", .str "Performance Optimization")
      , ("description", .str "As a user, I want the application to load quickly and respond promptly, so that I can work efficiently without delays.")
      , ("priority", .str "Medium")
      , ("effort", .str "Large") ]
  , .obj
      [ ("title", .str "Error Handling")
      , ("description", .str "As a user, I want clear error messages and graceful error handling, so that I understand what went wrong and can recover easily.")
      , ("priority", .str "Low")
      , ("effort", .str "Medium") ] ]

/-- Function `_generate_fallback_stories` from claude_analyzer.py (lines 254-300):
parse the first `max_stories` catalog entries through the shared record
parser, with ids counted from 1 (`enumerate(generic_stories[:max_stories], 1)`). -/
def _generate_fallback_stories (now maxStories : Nat) : List UserStory :=
  (List.enumFrom 1 (fallbackCatalog.take maxStories)).foldl
    (fun acc p =>
      match _parse_user_story p.2 p.1 now with
      | some us => acc ++ [us]
      | none => acc)
    []

/-- The `async for` loop of `_generate_user_stories` (claude_analyzer.py
lines 155-188): consume the stream in order, break as soon as the quota is
reached, and on any exception — raised by the stream itself (`Except.error`
in the stream) or inside the loop body — substitute the fallback catalog for
the entire result. -/
def queryLoop (loads : Loads) (now maxStories : Nat) :
    List (Except Unit Msg) → List UserStory → Nat → List UserStory
  | [], acc, _ => acc
  | .error _ :: _, _, _ => _generate_fallback_stories now maxStories
  | .ok m :: rest, acc, sid =>
    match processMsg loads now maxStories (acc, sid) m with
    | .error _ => _generate_fallback_stories now maxStories
    | .ok st =>
      if maxStories ≤ st.1.length then st.1
      else queryLoop loads now maxStories rest st.1 st.2

/-- Function `_generate_user_stories` from claude_analyzer.py (lines 144-190):
run the stream-consumption loop from an empty accumulator and sequence id 1,
then return `user_stories[:max_stories]`. -/
def _generate_user_stories (loads : Loads) (now maxStories : Nat)
    (stream : List (Except Unit Msg)) : List UserStory :=
  (queryLoop loads now maxStories stream [] 1).take maxStories

/-- Reference run over an error-free stream segment: `some` exactly when
processing every message neither raises nor reaches the quota, returning the
accumulated state.  Used to express that the raising point of a stream is
actually reached. -/
def runMsgs (loads : Loads) (now maxStories : Nat) :
    List Msg → List UserStory × Nat → Option (List UserStory × Nat)
  | [], st => some st
  | m :: ms, st =>
    match processMsg loads now maxStories st m with
    | .error _ => none
    | .ok st' => if maxStories ≤ st'.1.length then none else runMsgs loads now maxStories ms st'

/-- The Fallback Catalog rendered as the validated records it always parses
to: the expected result list, in catalog order, stamped with the clock value
`now`. -/
def catalogStoryList (now : Nat) : List UserStory :=
  [ { id := 1
      title := .str "User Authentication"
      description := .str "As a user, I want to securely log in to the application, so that I can access my personalized content and features."
      acceptance_criteria := []
      priority := .high
      effort := .medium
      tags := []
      created_at := now }
  , { id := 2
      title := .str "Data Management"
      description := .str "As a user, I want to create, read, update, and delete my data, so that I can manage my information effectively."
      acceptance_criteria := []
      priority := .high
      effort := .medium
      tags := []
      created_at := now }
  , { id := 3
      title := .str "User Interface"
      description := .str "As a user, I want an intuitive and responsive user interface, so that I can easily navigate and use the application."
      acceptance_criteria := []
      priority := .medium
      effort := .large
      tags := []
      created_at := now }
  , { id := 4
      title := .str "Performance Optimization"
      description := .str "As a user, I want the application to load quickly and respond promptly, so that I can work efficiently without delays."
      acceptance_criteria := []
      priority := .medium
      effort := .large
      tags := []
      created_at := now }
  , { id := 5
      title := .str "Error Handling"
      description := .str "As a user, I want clear error messages and graceful error handling, so that I understand what went wrong and can recover easily."
      acceptance_criteria := []
      priority := .low
      effort := .medium
      tags := []
      created_at := now } ]

/-- Every catalog entry parses successfully, so the fallback generator is the
`max_stories`-entry preimage of the rendered catalog. -/
theorem fallback_eq_catalog (now maxStories : Nat) :
    _generate_fallback_stories now maxStories = (catalogStoryList now).take maxStories :=
  match maxStories with
  | 0 => rfl
  | 1 => rfl
  | 2 => rfl
  | 3 => rfl
  | 4 => rfl
  | n + 5 => by
    have h1 : fallbackCatalog.take (n + 5) = fallbackCatalog := by
      apply List.take_of_length_le
      simp [fallbackCatalog]
    have h2 : (catalogStoryList now).take (n + 5) = catalogStoryList now := by
      apply List.take_of_length_le
      simp [catalogStoryList]
    simp only [_generate_fallback_stories, h1, h2]
    rfl

/-- If processing a stream segment completes without raising and without
reaching the quota, then hitting the raising point afterwards discards the
accumulated stories and substitutes the fallback result. -/
theorem queryLoop_reaches_error (loads : Loads) (now maxStories : Nat)
    (rest : List (Except Unit Msg)) (pre : List Msg) (st st' : List UserStory × Nat)
    (h : runMsgs loads now maxStories pre st = some st') :
    queryLoop loads now maxStories (pre.map Except.ok ++ Except.error () :: rest) st.1 st.2
      = _generate_fallback_stories now maxStories := by
  induction pre generalizing st with
  | nil => simp [queryLoop]
  | cons m ms ih =>
    simp only [runMsgs] at h
    simp only [List.map_cons, List.cons_append, queryLoop]
    rcases hp : processMsg loads now maxStories st m with e | st2
    · rw [hp] at h
    · rw [hp] at h
      by_cases hlen : maxStories ≤ st2.1.length
      · simp [hlen] at h
      · simp only [hlen, if_false] at h ⊢
        exact ih st2 h

/-- C1: for every prompt context and every max_count, if the response stream
raises at any point that the consumption loop actually reaches (here: after
the error-free segment `pre`, which parses some stories without filling the
quota), the Story Synthesis Engine returns exactly the Fallback Catalog's
first `max_count` entries in catalog order; the partially accumulated
model-derived stories in `st` are discarded. -/
theorem stream_error_yields_fallback_catalog
    (loads : Loads) (now maxStories : Nat) (pre : List Msg)
    (rest : List (Except Unit Msg)) (st : List UserStory × Nat)
    (h : runMsgs loads now maxStories pre ([], 1) = some st) :
    _generate_user_stories loads now maxStories (pre.map Except.ok ++ Except.error () :: rest)
      = (catalogStoryList now).take maxStories := by
  have hq : queryLoop loads now maxStories (pre.map Except.ok ++ Except.error () :: rest) [] 1
      = _generate_fallback_stories now maxStories :=
    queryLoop_reaches_error loads now maxStories rest pre ([], 1) st h
  unfold _generate_user_stories
  rw [hq, fallback_eq_catalog, List.take_take, min_self]

/-- Witness for C1: a stream that raises immediately, max_count 2. -/
theorem stream_error_yields_fallback_catalog_witness :
    runMsgs (fun _ => none) 0 2 [] ([], 1) = some ([], 1) ∧
    _generate_user_stories (fun _ => none) 0 2 [Except.error ()]
      = (catalogStoryList 0).take 2 :=
  ⟨rfl, stream_error_yields_fallback_catalog (fun _ => none) 0 2 [] [] ([], 1) rfl⟩

/-- C2: for every input stream and every max_count (including 0), the story
list returned by the Story Synthesis Engine has length at most max_count, on
both the model-derived path (first conjunct, all streams) and the fallback
path (second conjunct). -/
theorem result_length_le_max_count
    (loads : Loads) (now maxStories : Nat) (stream : List (Except Unit Msg)) :
    (_generate_user_stories loads now maxStories stream).length ≤ maxStories ∧
    (_generate_fallback_stories now maxStories).length ≤ maxStories := by
  constructor
  · unfold _generate_user_stories
    simp [List.length_take]
  · rw [fallback_eq_catalog]
    simp [List.length_take]

/-- Projection of a `UserStory` onto every field except `created_at`. -/
def UserStory.contentFields (us : UserStory) :
    Nat × Json × Json × List AcceptanceCriterion × StoryPriority × StoryEffort × List Json :=
  (us.id, us.title, us.description, us.acceptance_criteria, us.priority, us.effort, us.tags)

/-- Counterexample to C5: `UserStory.created_at` is stamped with
`datetime.now()` at record construction (modelled by the clock argument), so
two Fallback Catalog calls with the same requested count N = 1 made at
different clock values produce records that differ in the `created_at`
field. -/
theorem fallback_calls_differ_in_created_at :
    (_generate_fallback_stories 0 1).map UserStory.created_at = [0] ∧
    (_generate_fallback_stories 1 1).map UserStory.created_at = [1] ∧
    _generate_fallback_stories 0 1 ≠ _generate_fallback_stories 1 1 := by
  refine ⟨rfl, rfl, fun h => ?_⟩
  have h2 := congrArg (List.map UserStory.created_at) h
  have h3 : ([0] : List Nat) = [1] := h2
  simp at h3

/-- C5 (amended): calling the Fallback Catalog twice with the same requested
count N yields the same records in the same order in every field except
`created_at`, which records the construction clock value. -/
theorem fallback_reproducible_except_created_at (t1 t2 n : Nat) :
    (_generate_fallback_stories t1 n).map UserStory.contentFields
      = (_generate_fallback_stories t2 n).map UserStory.contentFields := by
  rw [fallback_eq_catalog, fallback_eq_catalog, List.map_take, List.map_take]
  congr 1

/-- Inversion for the enum lookup: a successful `StoryPriority(v)` call means
`v` was exactly a canonical value string. -/
theorem priorityFromValue_eq_some {v : Json} {p : StoryPriority}
    (h : StoryPriority.fromValue v = some p) : v = .str p.value := by
  unfold StoryPriority.fromValue at h
  split at h
  all_goals first
    | exact Option.noConfusion h
    | (injection h with h2; subst h2; rfl)

/-- Inversion for the enum lookup: a successful `StoryEffort(v)` call means
`v` was exactly a canonical value string. -/
theorem effortFromValue_eq_some {v : Json} {e : StoryEffort}
    (h : StoryEffort.fromValue v = some e) : v = .str e.value := by
  unfold StoryEffort.fromValue at h
  split at h
  all_goals first
    | exact Option.noConfusion h
    | (injection h with h2; subst h2; rfl)

/-- C3: the Domain Record Parser is total — it returns a validated record or
`none`, never propagating an exception (first conjunct; all internal raising
points are modelled inside the definition and caught) — and whenever the
stored `priority`/`effort` value is not exactly a canonical enum value
(wrong-case string, unknown string, non-string value, or absent key), the
parsed record carries the Medium member (second and third conjuncts). -/
theorem parse_user_story_total_and_coerces_medium (i now : Nat) :
    (∀ d : Json, _parse_user_story d i now = none ∨ ∃ us, _parse_user_story d i now = some us) ∧
    (∀ kvs : List (String × Json),
      (∀ p : StoryPriority, kvs.lookup "priority" ≠ some (.str p.value)) →
      ∀ us, _parse_user_story (.obj kvs) i now = some us → us.priority = .medium) ∧
    (∀ kvs : List (String × Json),
      (∀ e : StoryEffort, kvs.lookup "effort" ≠ some (.str e.value)) →
      ∀ us, _parse_user_story (.obj kvs) i now = some us → us.effort = .medium) := by
  refine ⟨?_, ?_, ?_⟩
  · intro d
    match h : _parse_user_story d i now with
    | none => exact .inl rfl
    | some us => exact .inr ⟨us, rfl⟩
  · intro kvs hp us hus
    simp only [_parse_user_story] at hus
    cases hit : pyIter (pyGet kvs "acceptance_criteria" (.arr [])) with
    | none => rw [hit] at hus; exact Option.noConfusion hus
    | some items =>
      rw [hit] at hus
      have hus2 := Option.some.inj hus
      rw [← hus2]
      show (match StoryPriority.fromValue (pyGet kvs "priority" (.str "Medium")) with
        | some p => p
        | none => StoryPriority.medium) = StoryPriority.medium
      cases hv : kvs.lookup "priority" with
      | none => simp [pyGet, hv, StoryPriority.fromValue]
      | some v =>
        have hgv : pyGet kvs "priority" (.str "Medium") = v := by simp [pyGet, hv]
        rw [hgv]
        cases hf : StoryPriority.fromValue v with
        | none => rfl
        | some p =>
          exact absurd (hv.trans (congrArg some (priorityFromValue_eq_some hf))) (hp p)
  · intro kvs he us hus
    simp only [_parse_user_story] at hus
    cases hit : pyIter (pyGet kvs "acceptance_criteria" (.arr [])) with
    | none => rw [hit] at hus; exact Option.noConfusion hus
    | some items =>
      rw [hit] at hus
      have hus2 := Option.some.inj hus
      rw [← hus2]
      show (match StoryEffort.fromValue (pyGet kvs "effort" (.str "Medium")) with
        | some e => e
        | none => StoryEffort.medium) = StoryEffort.medium
      cases hv : kvs.lookup "effort" with
      | none => simp [pyGet, hv, StoryEffort.fromValue]
      | some v =>
        have hgv : pyGet kvs "effort" (.str "Medium") = v := by simp [pyGet, hv]
        rw [hgv]
        cases hf : StoryEffort.fromValue v with
        | none => rfl
        | some e =>
          exact absurd (hv.trans (congrArg some (effortFromValue_eq_some hf))) (he e)

/-- Witness for C3: a wrong-case priority string and an unknown effort string
both coerce to Medium on a concrete payload entry. -/
theorem parse_user_story_coerces_medium_witness :
    ∃ us, _parse_user_story (.obj [("priority", .str "HIGH"), ("effort", .str "Huge")]) 1 0
        = some us ∧ us.priority = .medium ∧ us.effort = .medium := by
  obtain ⟨us, hus⟩ : ∃ us,
      _parse_user_story (.obj [("priority", Json.str "HIGH"), ("effort", Json.str "Huge")]) 1 0
        = some us := ⟨_, rfl⟩
  refine ⟨us, hus, ?_, ?_⟩
  · refine (parse_user_story_total_and_coerces_medium 1 0).2.1
      [("priority", Json.str "HIGH"), ("effort", Json.str "Huge")] ?_ us hus
    intro p h
    have h2 : some (Json.str "HIGH") = some (Json.str p.value) := h
    injection h2 with h3
    injection h3 with h4
    cases p <;> exact absurd h4 (by decide)
  · refine (parse_user_story_total_and_coerces_medium 1 0).2.2
      [("priority", Json.str "HIGH"), ("effort", Json.str "Huge")] ?_ us hus
    intro e h
    have h2 : some (Json.str "Huge") = some (Json.str e.value) := h
    injection h2 with h3
    injection h3 with h4
    cases e <;> exact absurd h4 (by decide)

/-- Scan `findIdxOf` finds nothing exactly when the character is absent. -/
theorem findIdxOf_eq_none_iff {c : Char} {l : List Char} :
    findIdxOf c l = none ↔ ∀ j : Nat, l[j]? ≠ some c := by
  induction l with
  | nil => simp [findIdxOf]
  | cons x xs ih =>
    simp only [findIdxOf]
    by_cases hx : x = c
    · rw [if_pos hx]
      constructor
      · intro h; exact Option.noConfusion h
      · intro h; exact absurd (by simp [hx]) (h 0)
    · rw [if_neg hx]
      rw [Option.map_eq_none', ih]
      constructor
      · intro h j
        cases j with
        | zero => simp [hx]
        | succ m => simpa using h m
      · intro h j
        simpa using h (j + 1)

/-- Specification of `findIdxOf` (Python `str.find`): it returns `i` exactly
when position `i` holds the character and no earlier position does. -/
theorem findIdxOf_eq_some_iff {c : Char} {l : List Char} {i : Nat} :
    findIdxOf c l = some i ↔ l[i]? = some c ∧ ∀ j, j < i → l[j]? ≠ some c := by
  induction l generalizing i with
  | nil => simp [findIdxOf]
  | cons x xs ih =>
    simp only [findIdxOf]
    by_cases hx : x = c
    · rw [if_pos hx]
      constructor
      · intro h
        injection h with h
        subst h
        refine ⟨by simp [hx], ?_⟩
        intro j hj
        exact absurd hj (Nat.not_lt_zero j)
      · rintro ⟨h1, h2⟩
        cases i with
        | zero => rfl
        | succ n =>
          exfalso
          exact h2 0 (Nat.succ_pos n) (by simp [hx])
    · rw [if_neg hx]
      constructor
      · intro h
        rcases Option.map_eq_some'.mp h with ⟨a, ha, hai⟩
        subst hai
        rcases ih.mp ha with ⟨h1, h2⟩
        refine ⟨by simpa using h1, ?_⟩
        intro j hj
        cases j with
        | zero => simp [hx]
        | succ m => simpa using h2 m (by omega)
      · rintro ⟨h1, h2⟩
        cases i with
        | zero =>
          exfalso
          exact hx (by simpa using h1)
        | succ n =>
          have h1' : xs[n]? = some c := by simpa using h1
          have h2' : ∀ j, j < n → xs[j]? ≠ some c := by
            intro j hj hc
            exact h2 (j + 1) (by omega) (by simpa using hc)
          rw [ih.mpr ⟨h1', h2'⟩]
          rfl

/-- Scan `rfindIdxOf` finds nothing exactly when the character is absent. -/
theorem rfindIdxOf_eq_none_iff {c : Char} {l : List Char} :
    rfindIdxOf c l = none ↔ ∀ j : Nat, l[j]? ≠ some c := by
  induction l with
  | nil => simp [rfindIdxOf]
  | cons x xs ih =>
    simp only [rfindIdxOf]
    cases hr : rfindIdxOf c xs with
    | some a =>
      constructor
      · intro h; exact Option.noConfusion h
      · intro h
        have hxs : ∀ j : Nat, xs[j]? ≠ some c := fun j => by simpa using h (j + 1)
        rw [ih.mpr hxs] at hr
        exact Option.noConfusion hr
    | none =>
      by_cases hx : x = c
      · rw [if_pos hx]
        constructor
        · intro h; exact Option.noConfusion h
        · intro h; exact absurd (by simp [hx]) (h 0)
      · rw [if_neg hx]
        constructor
        · intro _ j
          cases j with
          | zero => simp [hx]
          | succ m => simpa using ih.mp hr m
        · intro _; rfl

/-- Specification of `rfindIdxOf` (Python `str.rfind`): it returns `i`
exactly when position `i` holds the character and no later position does. -/
theorem rfindIdxOf_eq_some_iff {c : Char} {l : List Char} {i : Nat} :
    rfindIdxOf c l = some i ↔ l[i]? = some c ∧ ∀ j, i < j → l[j]? ≠ some c := by
  induction l generalizing i with
  | nil => simp [rfindIdxOf]
  | cons x xs ih =>
    simp only [rfindIdxOf]
    cases hr : rfindIdxOf c xs with
    | some a =>
      constructor
      · intro h
        injection h with h
        subst h
        rcases ih.mp hr with ⟨h1, h2⟩
        refine ⟨by simpa using h1, ?_⟩
        intro j hj
        cases j with
        | zero => exact absurd hj (by omega)
        | succ m => simpa using h2 m (by omega)
      · rintro ⟨h1, h2⟩
        cases i with
        | zero =>
          exfalso
          rcases ih.mp hr with ⟨h1', _⟩
          exact h2 (a + 1) (Nat.succ_pos a) (by simpa using h1')
        | succ n =>
          have h1' : xs[n]? = some c := by simpa using h1
          have h2' : ∀ j, n < j → xs[j]? ≠ some c := by
            intro j hj hc
            exact h2 (j + 1) (by omega) (by simpa using hc)
          have := ih.mpr ⟨h1', h2'⟩
          rw [hr] at this
          injection this with h
          rw [h]
    | none =>
      by_cases hx : x = c
      · rw [if_pos hx]
        constructor
        · intro h
          injection h with h
          subst h
          refine ⟨by simp [hx], ?_⟩
          intro j hj
          cases j with
          | zero => exact absurd hj (by omega)
          | succ m => simpa using rfindIdxOf_eq_none_iff.mp hr m
        · rintro ⟨h1, h2⟩
          cases i with
          | zero => rfl
          | succ n =>
            exfalso
            have h1' : xs[n]? = some c := by simpa using h1
            exact rfindIdxOf_eq_none_iff.mp hr n h1'
      · rw [if_neg hx]
        constructor
        · intro h; exact Option.noConfusion h
        · rintro ⟨h1, h2⟩
          exfalso
          cases i with
          | zero => exact hx (by simpa using h1)
          | succ n => exact rfindIdxOf_eq_none_iff.mp hr n (by simpa using h1)

/-- C4: the Structured-Text Extractor returns the loader's parse of the
substring from the first opening brace to the last closing brace (inclusive)
exactly when both braces exist, the closing position is after the opening
position, and that substring parses; in every other case it returns `none`
(the iff rules out a `some` result there), and it is a total function, never
raising. -/
theorem extract_json_characterization {α : Type} (loads : List Char → Option α)
    (text : List Char) (v : α) :
    _extract_json_from_text loads text = some v ↔
      ∃ s e, text[s]? = some '{' ∧ (∀ j, j < s → text[j]? ≠ some '{') ∧
        text[e]? = some '}' ∧ (∀ j, e < j → text[j]? ≠ some '}') ∧
        s < e ∧ loads ((text.drop s).take (e + 1 - s)) = some v := by
  unfold _extract_json_from_text
  constructor
  · intro h
    cases hf : findIdxOf '{' text with
    | none => rw [hf] at h; exact Option.noConfusion h
    | some s =>
      cases hr : rfindIdxOf '}' text with
      | none =>
        simp only [hf, hr] at h
        exact Option.noConfusion h
      | some e =>
        simp only [hf, hr] at h
        by_cases hse : e > s
        · rw [if_pos hse] at h
          rcases findIdxOf_eq_some_iff.mp hf with ⟨hf1, hf2⟩
          rcases rfindIdxOf_eq_some_iff.mp hr with ⟨hr1, hr2⟩
          exact ⟨s, e, hf1, hf2, hr1, hr2, hse, h⟩
        · rw [if_neg hse] at h
          exact Option.noConfusion h
  · rintro ⟨s, e, h1, h2, h3, h4, h5, h6⟩
    simp only [findIdxOf_eq_some_iff.mpr ⟨h1, h2⟩, rfindIdxOf_eq_some_iff.mpr ⟨h3, h4⟩]
    rw [if_pos h5]
    exact h6

mutual

/-- Python `repr()` of a decoded JSON value, used by `str()` on containers. -/
def Json.pyRepr : Json → String
  | .null => "None"
  | .bool true => "True"
  | .bool false => "False"
  | .num n => toString n
  | .str s => "\x27" ++ s ++ "\x27"
  | .arr xs => "[" ++ String.intercalate ", " (Json.pyReprList xs) ++ "]"
  | .obj kvs => "\x7b" ++ String.intercalate ", " (Json.pyReprObj kvs) ++ "\x7d"

/-- Reprs of the elements of a Python list. -/
def Json.pyReprList : List Json → List String
  | [] => []
  | x :: xs => Json.pyRepr x :: Json.pyReprList xs

/-- Reprs of the entries of a Python dictionary. -/
def Json.pyReprObj : List (String × Json) → List String
  | [] => []
  | (k, v) :: kvs => ("\x27" ++ k ++ "\x27: " ++ Json.pyRepr v) :: Json.pyReprObj kvs

end

/-- Python `str()` of a decoded JSON value, as interpolated by f-strings:
strings render as themselves, scalars and containers as their Python
renderings. -/
def Json.pyStr : Json → String
  | .str s => s
  | v => Json.pyRepr v

/-- Python `str.title()` for the ASCII strings used here: a letter directly
preceded by a letter is lowercased, any other letter is uppercased. -/
def pyTitleAux : List Char → Bool → List Char
  | [], _ => []
  | c :: cs, prevAlpha =>
    if c.isAlpha then (if prevAlpha then c.toLower else c.toUpper) :: pyTitleAux cs true
    else c :: pyTitleAux cs false

/-- Python `str.title()`. -/
def pyTitle (s : String) : String :=
  ⟨pyTitleAux s.toList false⟩

/-- Modelled from the spec: the `TestType` enum is imported from
`github_repo_analyzer.types` by test_generator.py but its declaration is not
in the sources; members and canonical values follow spec §3 (`test_kind ∈
{unit,integration,end_to_end,api,ui,performance,security}`) and the value
strings asserted by tests/test_test_generation.py. -/
inductive TestType where
  | unit
  | integration
  | end_to_end
  | api
  | ui
  | performance
  | security
deriving DecidableEq

/-- Canonical string value of each `TestType` member. -/
def TestType.value : TestType → String
  | .unit => "unit"
  | .integration => "integration"
  | .end_to_end => "e2e"
  | .api => "api"
  | .ui => "ui"
  | .performance => "performance"
  | .security => "security"

/-- Modelled from the spec: the `TestPriority` enum (spec §3, priority ∈
{Low,Medium,High,Critical}), missing from the sources like `TestType`. -/
inductive TestPriority where
  | low
  | medium
  | high
  | critical
deriving DecidableEq

/-- Canonical string value of each `TestPriority` member. -/
def TestPriority.value : TestPriority → String
  | .low => "Low"
  | .medium => "Medium"
  | .high => "High"
  | .critical => "Critical"

/-- Modelled from the spec: the `TestCase` record (spec §3), whose dataclass
declaration is missing from the sources; fields follow the spec's data model
plus the `test_data` slot that test_generator.py passes at construction. -/
structure TestCase where
  id : Nat
  title : String
  description : String
  test_type : TestType
  priority : TestPriority
  user_story_id : Nat
  user_story_title : Json
  test_steps : List String
  expected_results : List String
  prerequisites : List String
  test_data : List (String × Json) := []
  tags : List String

/-- Modelled from the spec: the `TestSuite` record (spec §3), whose dataclass
declaration is missing from the sources. -/
structure TestSuite where
  id : Nat
  name : String
  description : String
  test_cases : List TestCase
  test_type : TestType
  user_story_ids : List Nat

/-- Property `total_tests` is derived: the size of the case list (spec §3,
and asserted by tests/test_test_generation.py). -/
def TestSuite.total_tests (s : TestSuite) : Nat :=
  s.test_cases.length

/-- Modelled from the spec: the `TestDocumentation` aggregate (spec §3),
whose dataclass declaration is missing from the sources.  Coverage
percentages are modelled with exact rationals. -/
structure TestDocumentation where
  repository_name : String
  analysis_date : Nat
  total_test_cases : Nat
  test_suites : List TestSuite
  test_coverage : List (String × ℚ)
  testing_strategy : String
  test_environment_requirements : List String
  execution_instructions : String
  maintenance_notes : String

/-- Modelled from the spec: the `TestGenerationConfig` record (spec §6's
configuration surface: test-kind toggles, max tests per story, focus
directive); its dataclass declaration is missing from the sources. -/
structure TestGenerationConfig where
  include_unit_tests : Bool := true
  include_integration_tests : Bool := true
  include_e2e_tests : Bool := true
  include_api_tests : Bool := true
  max_tests_per_story : Nat := 10
  focus_area : Option String := none

/-- Function `_parse_test_type` from test_generator.py (lines 282-294): keyword table
with `unit` as the default for unrecognized text. -/
def _parse_test_type (type_str : String) : TestType :=
  match (String.mk (type_str.toList.map Char.toLower)) with
  | "unit" => .unit
  | "integration" => .integration
  | "e2e" => .end_to_end
  | "end-to-end" => .end_to_end
  | "api" => .api
  | "ui" => .ui
  | "performance" => .performance
  | "security" => .security
  | _ => .unit

/-- Function `_parse_test_priority` from test_generator.py (lines 296-304): keyword
table with `Medium` as the default for unrecognized text. -/
def _parse_test_priority (priority_str : String) : TestPriority :=
  match (String.mk (priority_str.toList.map Char.toLower)) with
  | "low" => .low
  | "medium" => .medium
  | "high" => .high
  | "critical" => .critical
  | _ => .medium

/-- Python `str.split(sep)` for a one-character separator, keeping empty
pieces (so the empty text yields one empty piece, as in Python). -/
def splitOnChar (c : Char) : List Char → List (List Char)
  | [] => [[]]
  | x :: xs =>
    if x = c then [] :: splitOnChar c xs
    else
      match splitOnChar c xs with
      | [] => [[x]]
      | piece :: rest => (x :: piece) :: rest

/-- Python `str.strip()`: drop whitespace from both ends. -/
def pyStrip (l : List Char) : List Char :=
  ((l.dropWhile Char.isWhitespace).reverse.dropWhile Char.isWhitespace).reverse

/-- Python `str.replace(old, new)` on character lists: replace every
non-overlapping occurrence, left to right.  Structured with an explicit fuel
(initially the text length, enough because every step consumes at least one
character of a non-empty pattern); the source only replaces non-empty marker
literals, so the empty-pattern case never arises and returns the text
unchanged. -/
def pyReplaceAux (pat rep : List Char) : Nat → List Char → List Char
  | 0, l => l
  | _ + 1, [] => []
  | fuel + 1, x :: xs =>
    if pat.isPrefixOf (x :: xs) then
      rep ++ pyReplaceAux pat rep fuel ((x :: xs).drop pat.length)
    else
      x :: pyReplaceAux pat rep fuel xs

/-- Python `str.replace(old, new)`. -/
def pyReplace (l pat rep : List Char) : List Char :=
  if pat.isEmpty then l else pyReplaceAux pat rep l.length l

/-- The fresh case opened by a case-start marker line in
`_parse_test_generation_response` (test_generator.py lines 228-241). -/
def newTestCase (tid : Nat) (title : String) (story : UserStory) : TestCase :=
  { id := tid
    title := title
    description := ""
    test_type := .unit
    priority := .medium
    user_story_id := story.id
    user_story_title := story.title
    test_steps := []
    expected_results := []
    prerequisites := []
    test_data := []
    tags := [] }

/-- Appending the currently open case, if any (the flush that happens on a
new case-start marker and at end of input). -/
def flushCase (acc : List TestCase) : Option TestCase → List TestCase
  | some t => acc ++ [t]
  | none => acc

/-- The line-oriented state machine of `_parse_test_generation_response`
(test_generator.py lines 215-262): each line is stripped; a line starting
with a case-start marker flushes the open case and opens a new one titled by
the marker-stripped remainder; `Type:`/`Priority:` lines mutate the open
case through the keyword tables; `Steps:`/`Expected:` lines are recognized
but unattributed (pass); all other lines are dropped. -/
def parseTestLines (story : UserStory) :
    List (List Char) → Option TestCase → Nat → List TestCase → List TestCase
  | [], cur, _, acc => flushCase acc cur
  | raw :: rest, cur, tid, acc =>
    let line := pyStrip raw
    if "Test Case".toList.isPrefixOf line || "Test:".toList.isPrefixOf line then
      let title := pyStrip (pyReplace (pyReplace line "Test Case".toList []) "Test:".toList [])
      parseTestLines story rest (some (newTestCase tid ⟨title⟩ story)) (tid + 1) (flushCase acc cur)
    else
      match cur with
      | some t =>
        if "Type:".toList.isPrefixOf line then
          parseTestLines story rest
            (some { t with test_type :=
              _parse_test_type ⟨(pyStrip (pyReplace line "Type:".toList [])).map Char.toLower⟩ })
            tid acc
        else if "Priority:".toList.isPrefixOf line then
          parseTestLines story rest
            (some { t with priority :=
              _parse_test_priority ⟨pyStrip (pyReplace line "Priority:".toList [])⟩ })
            tid acc
        else
          parseTestLines story rest (some t) tid acc
      | none => parseTestLines story rest none tid acc

/-- The deterministic placeholder case synthesized when the state machine
produced zero cases (test_generator.py lines 265-278). -/
def basicTestCase (story : UserStory) : TestCase :=
  { id := 1
    title := "Basic test for " ++ story.title.pyStr
    description := "Test covering the main functionality of: " ++ story.description.pyStr
    test_type := .unit
    priority := .medium
    user_story_id := story.id
    user_story_title := story.title
    test_steps := ["1. Set up test environment", "2. Execute main functionality", "3. Verify results"]
    expected_results := ["Environment is ready", "Functionality executes successfully", "Results match expectations"]
    prerequisites := ["Test environment configured"]
    test_data := []
    tags := ["basic", "smoke"] }

/-- Function `_parse_test_generation_response` from test_generator.py (lines
201-280): run the state machine over the newline-split response and fall
back to the single placeholder case when it produced nothing. -/
def _parse_test_generation_response (response : List Char) (story : UserStory) : List TestCase :=
  let test_cases := parseTestLines story (splitOnChar (Char.ofNat 10) response) none 1 []
  if test_cases.isEmpty then [basicTestCase story] else test_cases

/-- One step of the grouping dictionary of `_create_test_suites`
(test_generator.py lines 316-321): Python dict semantics, first-occurrence
key order, append to the key's list. -/
def groupAdd (groups : List (TestType × List TestCase)) (tc : TestCase) :
    List (TestType × List TestCase) :=
  match groups with
  | [] => [(tc.test_type, [tc])]
  | (t, cs) :: rest =>
    if t = tc.test_type then (t, cs ++ [tc]) :: rest
    else (t, cs) :: groupAdd rest tc

/-- The suite-emission step of `_create_test_suites` (test_generator.py
lines 324-334): skip empty groups, otherwise append a suite whose id is
`len(suites) + 1`. -/
def addSuite (story : UserStory) (suites : List TestSuite) (p : TestType × List TestCase) :
    List TestSuite :=
  if p.2.isEmpty then suites
  else
    suites ++
      [{ id := suites.length + 1
         name := pyTitle p.1.value ++ " Tests for " ++ story.title.pyStr
         description := "Test suite covering " ++ p.1.value ++ " testing for user story: "
           ++ story.title.pyStr
         test_cases := p.2
         test_type := p.1
         user_story_ids := [story.id] }]

/-- Function `_create_test_suites` from test_generator.py (lines 306-336): group the
story's cases by test type in first-occurrence order and emit one suite per
group, with `id = len(suites) + 1` — a counter local to this call. -/
def _create_test_suites (test_cases : List TestCase) (story : UserStory) : List TestSuite :=
  (test_cases.foldl groupAdd []).foldl (addSuite story) []

/-- One step of the per-kind counting dictionary of
`_calculate_test_coverage` (test_generator.py lines 352-355). -/
def bumpCount (m : List (String × Nat)) (k : String) : List (String × Nat) :=
  match m with
  | [] => [(k, 1)]
  | (k0, v) :: rest => if k0 = k then (k0, v + 1) :: rest else (k0, v) :: bumpCount rest k

/-- Function `_calculate_test_coverage` from test_generator.py (lines 338-361): empty
mapping for zero cases, otherwise `(count / total) * 100` per test-kind
value string, keyed in first-occurrence order (the `test_suites` parameter
of the source is unused). -/
def _calculate_test_coverage (test_cases : List TestCase) : List (String × ℚ) :=
  if test_cases.length = 0 then []
  else
    (test_cases.foldl (fun m tc => bumpCount m tc.test_type.value) []).map
      (fun p => (p.1, ((p.2 : ℚ) / (test_cases.length : ℚ)) * 100))

/-- Function `_generate_tests_for_story` from test_generator.py (lines 94-127), with
the collaborator's concatenated response text as an explicit input: parse
and cap at `max_tests_per_story`. -/
def _generate_tests_for_story (config : TestGenerationConfig) (story : UserStory)
    (response : List Char) : List TestCase :=
  (_parse_test_generation_response response story).take config.max_tests_per_story

/-- Function `generate_tests_from_analysis` from test_generator.py (lines 27-92),
with collaborator outputs as explicit inputs: each story's response text,
the testing-strategy response, and the upstream framework/language
detection.  Narrative fields not involved in any claim (strategy, fixed
environment/instructions/maintenance templates) are carried through
verbatim. -/
def generate_tests_from_analysis (config : TestGenerationConfig) (repoName : String)
    (storiesWithResponses : List (UserStory × List Char)) (strategy : String)
    (env_requirements : List String) (execution_instructions maintenance_notes : String)
    (now : Nat) : TestDocumentation :=
  let all_test_cases :=
    (storiesWithResponses.map (fun p => _generate_tests_for_story config p.1 p.2)).flatten
  let test_suites :=
    (storiesWithResponses.map
      (fun p => _create_test_suites (_generate_tests_for_story config p.1 p.2) p.1)).flatten
  { repository_name := repoName
    analysis_date := now
    total_test_cases := all_test_cases.length
    test_suites := test_suites
    test_coverage := _calculate_test_coverage all_test_cases
    testing_strategy := strategy
    test_environment_requirements := env_requirements
    execution_instructions := execution_instructions
    maintenance_notes := maintenance_notes }

/-- Concrete input story used by closed theorems below. -/
def storyA : UserStory :=
  { id := 1
    title := .str "A"
    description := .str "first story"
    acceptance_criteria := []
    priority := .high
    effort := .medium
    tags := []
    created_at := 0 }

/-- Second concrete input story used by closed theorems below. -/
def storyB : UserStory :=
  { id := 2
    title := .str "B"
    description := .str "second story"
    acceptance_criteria := []
    priority := .low
    effort := .small
    tags := []
    created_at := 0 }

/-- Appending an element carrying the next position-based id preserves the
position-based-id invariant. -/
theorem snoc_ids_invariant {α : Type} (f : α → Nat) (acc : List α) (x : α)
    (hacc : ∀ i y, acc[i]? = some y → f y = i + 1)
    (hx : f x = acc.length + 1) :
    ∀ i y, (acc ++ [x])[i]? = some y → f y = i + 1 := by
  intro i y hy
  rw [List.getElem?_append] at hy
  by_cases hi : i < acc.length
  · rw [if_pos hi] at hy
    exact hacc i y hy
  · rw [if_neg hi] at hy
    cases hk : i - acc.length with
    | zero =>
      rw [hk] at hy
      simp at hy
      have hieq : i = acc.length := by omega
      rw [← hy, hx, hieq]
    | succ k =>
      rw [hk] at hy
      simp at hy

/-- The suite-emission fold keeps suite ids equal to position + 1. -/
theorem addSuite_fold_ids (story : UserStory) (groups : List (TestType × List TestCase))
    (acc : List TestSuite)
    (hacc : ∀ i y, acc[i]? = some y → y.id = i + 1) :
    ∀ i y, (groups.foldl (addSuite story) acc)[i]? = some y → y.id = i + 1 := by
  induction groups generalizing acc with
  | nil => exact hacc
  | cons g gs ih =>
    refine ih (addSuite story acc g) ?_
    unfold addSuite
    by_cases hg : g.2.isEmpty
    · rw [if_pos hg]
      exact hacc
    · rw [if_neg hg]
      exact snoc_ids_invariant TestSuite.id acc _ hacc rfl

/-- C6 (amended): suite id assignment is a counter local to each story's
`_create_test_suites` call — within one call the suites are numbered
1, 2, ... by position, so ids are distinct within one story's suites but
restart at 1 for the next story. -/
theorem suite_ids_sequential_within_story (test_cases : List TestCase) (story : UserStory)
    (i : Nat) (suite : TestSuite)
    (h : (_create_test_suites test_cases story)[i]? = some suite) :
    suite.id = i + 1 := by
  unfold _create_test_suites at h
  exact addSuite_fold_ids story _ [] (fun j y hj => by simp at hj) i suite h

/-- Witness for the amended C6: a one-suite call numbers its suite 1. -/
theorem suite_ids_sequential_within_story_witness :
    ∃ suite, (_create_test_suites [basicTestCase storyA] storyA)[0]? = some suite ∧
      suite.id = 0 + 1 := by
  obtain ⟨suite, hs⟩ : ∃ suite,
      (_create_test_suites [basicTestCase storyA] storyA)[0]? = some suite := ⟨_, rfl⟩
  exact ⟨suite, hs, suite_ids_sequential_within_story [basicTestCase storyA] storyA 0 suite hs⟩

/-- Counterexample to C6: in a run over two stories whose responses each
yield one (placeholder, unit) case, the resulting TestDocumentation holds
two suites that BOTH have id 1 — the suite id counter restarts for each
story (`id = len(suites) + 1` over a per-call list), so ids are not distinct
across the run. -/
theorem suite_ids_repeat_across_stories :
    ((generate_tests_from_analysis {} "repo" [(storyA, ([] : List Char)), (storyB, ([] : List Char))] "" [] "" "" 0).test_suites.map
      TestSuite.id) = [1, 1] ∧
    ¬ ((generate_tests_from_analysis {} "repo" [(storyA, ([] : List Char)), (storyB, ([] : List Char))] "" [] "" "" 0).test_suites.map
      TestSuite.id).Nodup := by
  have h1 : ((generate_tests_from_analysis {} "repo" [(storyA, ([] : List Char)), (storyB, ([] : List Char))] "" [] "" "" 0).test_suites.map
      TestSuite.id) = [1, 1] := by decide
  refine ⟨h1, ?_⟩
  intro h
  rw [h1] at h
  simp at h

/-- Number of cases whose test kind carries the value string `k` (kinds are
in bijection with their value strings, so this is the per-kind count). -/
def countOfKind (k : String) (test_cases : List TestCase) : Nat :=
  (test_cases.filter (fun tc => tc.test_type.value == k)).length

/-- Bumping a key adds one to the tally total. -/
theorem bumpCount_sum (m : List (String × Nat)) (k : String) :
    ((bumpCount m k).map Prod.snd).sum = ((m.map Prod.snd).sum) + 1 := by
  induction m with
  | nil => simp [bumpCount]
  | cons p rest ih =>
    obtain ⟨k0, v⟩ := p
    unfold bumpCount
    by_cases h : k0 = k
    · rw [if_pos h]
      simp
      omega
    · rw [if_neg h]
      simp [ih]
      omega

/-- Bumping a key increments that key's tally (`dict.get(k, 0) + 1`). -/
theorem bumpCount_lookup_self (m : List (String × Nat)) (k : String) :
    List.lookup k (bumpCount m k) = some (((List.lookup k m).getD 0) + 1) := by
  induction m with
  | nil => simp [bumpCount]
  | cons p rest ih =>
    obtain ⟨k0, v⟩ := p
    unfold bumpCount
    by_cases h : k0 = k
    · subst h
      simp [List.lookup_cons]
    · rw [if_neg h]
      have hb : (k == k0) = false := beq_false_of_ne (fun he => h he.symm)
      simp [List.lookup_cons, hb, ih]

/-- Bumping a key leaves every other key's tally unchanged. -/
theorem bumpCount_lookup_other (m : List (String × Nat)) (k k2 : String) (hne : k2 ≠ k) :
    List.lookup k2 (bumpCount m k) = List.lookup k2 m := by
  induction m with
  | nil => simp [bumpCount, List.lookup_cons, beq_false_of_ne hne]
  | cons p rest ih =>
    obtain ⟨k0, v⟩ := p
    unfold bumpCount
    by_cases h : k0 = k
    · subst h
      simp [List.lookup_cons, beq_false_of_ne hne]
    · rw [if_neg h]
      simp [List.lookup_cons, ih]

/-- Over the counting fold, each key's tally grows by that kind's count. -/
theorem countFold_lookup (test_cases : List TestCase) :
    ∀ (m : List (String × Nat)) (k : String),
    (List.lookup k (test_cases.foldl (fun m tc => bumpCount m tc.test_type.value) m)).getD 0
      = (List.lookup k m).getD 0 + countOfKind k test_cases := by
  induction test_cases with
  | nil => intro m k; simp [countOfKind]
  | cons tc rest ih =>
    intro m k
    rw [List.foldl_cons, ih (bumpCount m tc.test_type.value) k]
    by_cases h : tc.test_type.value = k
    · subst h
      rw [bumpCount_lookup_self]
      simp [countOfKind, List.filter_cons]
      omega
    · rw [bumpCount_lookup_other m tc.test_type.value k (fun he => h he.symm)]
      have hb : (tc.test_type.value == k) = false := beq_false_of_ne h
      simp [countOfKind, List.filter_cons, hb]

/-- A key has no tally after the counting fold exactly when it had none
before and counts nothing in the batch. -/
theorem countFold_lookup_none (test_cases : List TestCase) :
    ∀ (m : List (String × Nat)) (k : String),
    List.lookup k (test_cases.foldl (fun m tc => bumpCount m tc.test_type.value) m) = none
      ↔ List.lookup k m = none ∧ countOfKind k test_cases = 0 := by
  induction test_cases with
  | nil => intro m k; simp [countOfKind]
  | cons tc rest ih =>
    intro m k
    rw [List.foldl_cons, ih (bumpCount m tc.test_type.value) k]
    by_cases h : tc.test_type.value = k
    · subst h
      rw [bumpCount_lookup_self]
      simp [countOfKind, List.filter_cons]
    · rw [bumpCount_lookup_other m tc.test_type.value k (fun he => h he.symm)]
      have hb : (tc.test_type.value == k) = false := beq_false_of_ne h
      simp [countOfKind, List.filter_cons, hb]

/-- A found key is really an entry of the association list. -/
theorem lookup_mem {m : List (String × Nat)} {k : String} {c : Nat}
    (h : List.lookup k m = some c) : (k, c) ∈ m := by
  induction m with
  | nil => simp [List.lookup] at h
  | cons p rest ih =>
    obtain ⟨k0, v⟩ := p
    rw [List.lookup_cons] at h
    by_cases he : k = k0
    · subst he
      simp at h
      subst h
      exact List.mem_cons_self _ _
    · rw [beq_false_of_ne he] at h
      simp at h
      exact List.mem_cons_of_mem _ (ih h)

/-- With distinct keys, each entry is what lookup finds. -/
theorem mem_lookup_of_nodup {m : List (String × Nat)} {k : String} {c : Nat}
    (hnd : (m.map Prod.fst).Nodup) (h : (k, c) ∈ m) : List.lookup k m = some c := by
  induction m with
  | nil => simp at h
  | cons p rest ih =>
    obtain ⟨k0, v⟩ := p
    rw [List.map_cons] at hnd
    have hnd1 := List.nodup_cons.mp hnd
    rcases List.mem_cons.mp h with h1 | h1
    · injection h1 with h1a h1b
      subst h1a
      subst h1b
      simp [List.lookup_cons]
    · have hk : k ≠ k0 := by
        intro he
        subst he
        exact absurd (List.mem_map_of_mem Prod.fst h1) hnd1.1
      rw [List.lookup_cons, beq_false_of_ne hk]
      simpa using ih hnd1.2 h1

/-- The key list of a bumped tally: unchanged when the key is present,
extended by the key at the end otherwise. -/
theorem bumpCount_keys (m : List (String × Nat)) (k : String) :
    (bumpCount m k).map Prod.fst =
      if k ∈ m.map Prod.fst then m.map Prod.fst else m.map Prod.fst ++ [k] := by
  induction m with
  | nil => simp [bumpCount]
  | cons p rest ih =>
    obtain ⟨k0, v⟩ := p
    unfold bumpCount
    by_cases h : k0 = k
    · subst h
      simp
    · rw [if_neg h]
      have hk : ¬ k = k0 := fun he => h he.symm
      simp [ih, hk]
      by_cases hm : k ∈ rest.map Prod.fst
      · simp [hm]
      · simp [hm]
        rw [if_neg hk]

/-- Bumping keeps the tally's keys distinct. -/
theorem bumpCount_keys_nodup {m : List (String × Nat)} (k : String)
    (hnd : (m.map Prod.fst).Nodup) : ((bumpCount m k).map Prod.fst).Nodup := by
  rw [bumpCount_keys]
  by_cases hm : k ∈ m.map Prod.fst
  · simpa [hm] using hnd
  · simp [hm, List.nodup_append, hnd]

/-- The counting fold keeps the tally's keys distinct. -/
theorem countFold_keys_nodup (test_cases : List TestCase) :
    ∀ (m : List (String × Nat)), (m.map Prod.fst).Nodup →
    ((test_cases.foldl (fun m tc => bumpCount m tc.test_type.value) m).map Prod.fst).Nodup := by
  induction test_cases with
  | nil => intro m hm; simpa using hm
  | cons tc rest ih =>
    intro m hm
    rw [List.foldl_cons]
    exact ih _ (bumpCount_keys_nodup _ hm)

/-- Over the counting fold, the tally total grows by the batch size. -/
theorem countFold_sum (test_cases : List TestCase) :
    ∀ m : List (String × Nat),
    ((test_cases.foldl (fun m tc => bumpCount m tc.test_type.value) m).map Prod.snd).sum
      = (m.map Prod.snd).sum + test_cases.length := by
  induction test_cases with
  | nil => intro m; simp
  | cons tc rest ih =>
    intro m
    rw [List.foldl_cons, ih (bumpCount m tc.test_type.value), bumpCount_sum]
    simp
    omega

/-- Summing the per-key ratios equals the ratio of the summed tallies. -/
theorem ratio_map_sum (l : List (String × Nat)) (t : ℚ) :
    (l.map (fun p => ((p.2 : ℚ) / t) * 100)).sum
      = (((l.map Prod.snd).sum : Nat) : ℚ) / t * 100 := by
  induction l with
  | nil => simp
  | cons p rest ih =>
    simp [ih]
    ring

/-- C7: the computed coverage mapping is empty for zero cases; otherwise it
assigns to each test kind present exactly (count of that kind / total count)
× 100 (third conjunct: every kind present has an entry; second: every entry
carries exactly that ratio), and its values sum to exactly 100 (exact
rational arithmetic models the ideal value of the float computation). -/
theorem coverage_mapping_correct (test_cases : List TestCase) :
    (test_cases = [] → _calculate_test_coverage test_cases = []) ∧
    (test_cases ≠ [] →
      ((_calculate_test_coverage test_cases).map Prod.snd).sum = 100 ∧
      (∀ k x, (k, x) ∈ _calculate_test_coverage test_cases →
        x = ((countOfKind k test_cases : ℚ) / (test_cases.length : ℚ)) * 100) ∧
      (∀ tc ∈ test_cases, ∃ x,
        (tc.test_type.value, x) ∈ _calculate_test_coverage test_cases)) := by
  constructor
  · intro h; subst h; rfl
  · intro hne
    have hlen : test_cases.length ≠ 0 := by
      intro h
      exact hne (List.length_eq_zero.mp h)
    refine ⟨?_, ?_, ?_⟩
    · unfold _calculate_test_coverage
      rw [if_neg hlen, List.map_map]
      have hcomp : (Prod.snd ∘ fun p : String × Nat =>
            (p.1, ((p.2 : ℚ) / (test_cases.length : ℚ)) * 100))
          = fun p : String × Nat => ((p.2 : ℚ) / (test_cases.length : ℚ)) * 100 := rfl
      rw [hcomp, ratio_map_sum, countFold_sum test_cases []]
      simp
      rw [div_self (by exact_mod_cast hlen)]
    · intro k x hx
      unfold _calculate_test_coverage at hx
      rw [if_neg hlen] at hx
      rcases List.mem_map.mp hx with ⟨p, hp, hfp⟩
      obtain ⟨k0, c⟩ := p
      injection hfp with h1 h2
      subst h1
      subst h2
      have hnd := countFold_keys_nodup test_cases [] (by simp)
      have hl := mem_lookup_of_nodup hnd hp
      have hc := countFold_lookup test_cases [] k0
      rw [hl] at hc
      simp at hc
      rw [hc]
    · intro tc htc
      have hcnt : countOfKind tc.test_type.value test_cases ≠ 0 := by
        intro h0
        have hmem : tc ∈ test_cases.filter (fun tc2 => tc2.test_type.value == tc.test_type.value) :=
          List.mem_filter.mpr ⟨htc, by simp⟩
        unfold countOfKind at h0
        rw [List.length_eq_zero.mp h0] at hmem
        simp at hmem
      cases hl : List.lookup tc.test_type.value
          (test_cases.foldl (fun m tc => bumpCount m tc.test_type.value) []) with
      | none =>
        exact absurd ((countFold_lookup_none test_cases [] _).mp hl).2 hcnt
      | some c =>
        refine ⟨((c : ℚ) / (test_cases.length : ℚ)) * 100, ?_⟩
        unfold _calculate_test_coverage
        rw [if_neg hlen]
        exact List.mem_map.mpr ⟨(tc.test_type.value, c), lookup_mem hl, rfl⟩

/-- Witness for C7: a singleton batch gets coverage summing to 100, and an
empty batch gets the empty mapping. -/
theorem coverage_mapping_correct_witness :
    ((_calculate_test_coverage [basicTestCase storyA]).map Prod.snd).sum = 100 ∧
    _calculate_test_coverage [] = [] :=
  ⟨((coverage_mapping_correct [basicTestCase storyA]).2 (by simp)).1,
   (coverage_mapping_correct []).1 rfl⟩

/-- C8 (amended): when the state machine recognizes no case-start marker
line, the test-response parser returns exactly the one deterministic
placeholder case (first conjunct); consequently, whenever the per-story cap
`max_tests_per_story` is at least 1, every story contributes at least one
test case to the documentation (second conjunct). -/
theorem no_marker_yields_single_placeholder :
    (∀ (response : List Char) (story : UserStory),
      (∀ l ∈ splitOnChar (Char.ofNat 10) response,
        "Test Case".toList.isPrefixOf (pyStrip l) = false ∧
        "Test:".toList.isPrefixOf (pyStrip l) = false) →
      _parse_test_generation_response response story = [basicTestCase story]) ∧
    (∀ (config : TestGenerationConfig) (story : UserStory) (response : List Char),
      1 ≤ config.max_tests_per_story →
      1 ≤ (_generate_tests_for_story config story response).length) := by
  constructor
  · intro response story h
    have hmain : ∀ (lines : List (List Char)),
        (∀ l ∈ lines, "Test Case".toList.isPrefixOf (pyStrip l) = false ∧
          "Test:".toList.isPrefixOf (pyStrip l) = false) →
        ∀ tid : Nat, parseTestLines story lines none tid [] = [] := by
      intro lines
      induction lines with
      | nil => intro _ tid; rfl
      | cons l ls ih =>
        intro h2 tid
        have hl := h2 l (List.mem_cons_self _ _)
        simp only [parseTestLines, hl.1, hl.2, Bool.or_self, if_false]
        exact ih (fun x hx => h2 x (List.mem_cons_of_mem _ hx)) tid
    simp only [_parse_test_generation_response]
    rw [hmain _ h 1]
    rfl
  · intro config story response h1
    have hp : 1 ≤ (_parse_test_generation_response response story).length := by
      simp only [_parse_test_generation_response]
      by_cases he :
          (parseTestLines story (splitOnChar (Char.ofNat 10) response) none 1 []).isEmpty
      · rw [if_pos he]
        simp
      · rw [if_neg he]
        have hne : parseTestLines story (splitOnChar (Char.ofNat 10) response) none 1 [] ≠ [] := by
          intro hnil
          exact he (by rw [hnil]; rfl)
        exact Nat.one_le_iff_ne_zero.mpr (fun h0 => hne (List.length_eq_zero.mp h0))
    unfold _generate_tests_for_story
    rw [List.length_take]
    exact le_min h1 hp

/-- Witness for the amended C8: a marker-free response yields exactly the
placeholder, and the default cap keeps at least one case. -/
theorem no_marker_yields_single_placeholder_witness :
    _parse_test_generation_response "no markers here".toList storyA = [basicTestCase storyA] ∧
    1 ≤ (_generate_tests_for_story {} storyA []).length :=
  ⟨no_marker_yields_single_placeholder.1 "no markers here".toList storyA (by decide),
   no_marker_yields_single_placeholder.2 {} storyA [] (by decide)⟩

/-- Counterexample to C8's consequence clause: with a per-story cap of 0
(`--max-tests 0` is accepted by the CLI), the parser still produces its one
placeholder case, but the documentation built over one story holds zero test
cases and zero suites — not every story contributes a test case. -/
theorem zero_cap_story_contributes_no_cases :
    (_parse_test_generation_response [] storyA).length = 1 ∧
    (generate_tests_from_analysis { max_tests_per_story := 0 } "repo" [(storyA, [])]
      "" [] "" "" 0).total_test_cases = 0 ∧
    (generate_tests_from_analysis { max_tests_per_story := 0 } "repo" [(storyA, [])]
      "" [] "" "" 0).test_suites = [] :=
  ⟨rfl, rfl, rfl⟩

/-- The state machine numbers the cases it emits by position: the case at
position i of the result carries id i + 1 (ids restart from 1 at every
call). -/
theorem parseTestLines_ids (story : UserStory) :
    ∀ (lines : List (List Char)) (cur : Option TestCase) (tid : Nat) (acc : List TestCase),
      (∀ i y, acc[i]? = some y → y.id = i + 1) →
      (match cur with
       | some t => t.id = acc.length + 1 ∧ tid = acc.length + 2
       | none => tid = acc.length + 1) →
      ∀ i y, (parseTestLines story lines cur tid acc)[i]? = some y → y.id = i + 1 := by
  intro lines
  induction lines with
  | nil =>
    intro cur tid acc hacc hcur
    cases cur with
    | none => exact hacc
    | some t => exact snoc_ids_invariant TestCase.id acc t hacc hcur.1
  | cons l ls ih =>
    intro cur tid acc hacc hcur
    cases cur with
    | none =>
      simp only [parseTestLines]
      by_cases hm : ("Test Case".toList.isPrefixOf (pyStrip l)
          || "Test:".toList.isPrefixOf (pyStrip l)) = true
      · rw [if_pos hm]
        refine ih _ _ _ hacc ?_
        exact ⟨hcur, by simp only [flushCase]; omega⟩
      · rw [if_neg hm]
        exact ih _ _ _ hacc hcur
    | some t =>
      simp only [parseTestLines]
      by_cases hm : ("Test Case".toList.isPrefixOf (pyStrip l)
          || "Test:".toList.isPrefixOf (pyStrip l)) = true
      · rw [if_pos hm]
        refine ih _ _ _ (snoc_ids_invariant TestCase.id acc t hacc hcur.1) ?_
        refine ⟨?_, ?_⟩
        · show tid = (acc ++ [t]).length + 1
          have := hcur.2
          simp
          omega
        · show tid + 1 = (acc ++ [t]).length + 2
          have := hcur.2
          simp
          omega
      · rw [if_neg hm]
        by_cases ht : ("Type:".toList.isPrefixOf (pyStrip l)) = true
        · rw [if_pos ht]
          exact ih _ _ _ hacc ⟨hcur.1, hcur.2⟩
        · rw [if_neg ht]
          by_cases hpr : ("Priority:".toList.isPrefixOf (pyStrip l)) = true
          · rw [if_pos hpr]
            exact ih _ _ _ hacc ⟨hcur.1, hcur.2⟩
          · rw [if_neg hpr]
            exact ih _ _ _ hacc hcur

/-- C10: the test-response parser numbers cases from 1 independently per
call — the case at position i of any parse result has id i + 1 (first
conjunct) — so in a TestDocumentation built from two stories, the two cases
belonging to the two different stories both carry id 1 (second conjunct,
concrete two-story run). -/
theorem case_ids_restart_per_story :
    (∀ (response : List Char) (story : UserStory) (i : Nat) (tc : TestCase),
      (_parse_test_generation_response response story)[i]? = some tc → tc.id = i + 1) ∧
    ((generate_tests_from_analysis {} "repo" [(storyA, ([] : List Char)), (storyB, ([] : List Char))]
        "" [] "" "" 0).test_suites.map
      (fun s => s.test_cases.map (fun c => (c.user_story_id, c.id)))) = [[(1, 1)], [(2, 1)]] := by
  constructor
  · intro response story i tc h
    simp only [_parse_test_generation_response] at h
    by_cases he :
        (parseTestLines story (splitOnChar (Char.ofNat 10) response) none 1 []).isEmpty
    · rw [if_pos he] at h
      cases i with
      | zero =>
        simp at h
        rw [← h]
        rfl
      | succ n => simp at h
    · rw [if_neg he] at h
      exact parseTestLines_ids story _ none 1 [] (fun i y hy => by simp at hy) rfl i tc h
  · decide

/-- Witness for C10's universally quantified conjunct: the second case of a
two-marker response carries id 2. -/
theorem case_ids_restart_per_story_witness :
    ∃ tc, (_parse_test_generation_response "Test: a\nTest: b".toList storyA)[1]? = some tc ∧
      tc.id = 1 + 1 := by
  obtain ⟨tc, htc⟩ : ∃ tc,
      (_parse_test_generation_response "Test: a\nTest: b".toList storyA)[1]? = some tc :=
    ⟨_, rfl⟩
  exact ⟨tc, htc, case_ids_restart_per_story.1 _ storyA 1 tc htc⟩

/-- Dataclass `RepositoryInfo` from types.py (the fields the JSON renderer
reads); timestamps are modelled as clock values. -/
structure RepositoryInfo where
  full_name : String
  description : Option String
  language : Option String
  stars : Nat
  forks : Nat
  topics : List String
  license : Option String
  created_at : Nat
  updated_at : Nat
  size : Nat
  default_branch : String

/-- Dataclass `SystemArchitecture` from types.py. -/
structure SystemArchitecture where
  system_diagram : String
  api_flow_diagram : String
  data_flow_diagram : String
  component_diagram : String
  deployment_diagram : Option String := none

/-- Dataclass `APIAnalysis` from types.py; endpoint entries are arbitrary
decoded JSON values. -/
structure APIAnalysis where
  endpoints : List Json
  external_services : List String
  authentication_methods : List String
  data_formats : List String
  websocket_events : List String := []
  database_schemas : List String := []

/-- Dataclass `TechnicalDeepDive` from types.py; the dictionary-shaped
fields carry decoded JSON values. -/
structure TechnicalDeepDive where
  technology_stack : Json
  build_system : Json
  testing_framework : Json
  ci_cd_pipeline : Json
  deployment_strategy : Json
  performance_optimizations : List String
  security_features : List String

/-- Dataclass `AnalysisResult` from types.py (the fields the JSON renderer
reads). -/
structure AnalysisResult where
  repository : RepositoryInfo
  user_stories : List UserStory
  analysis_date : Nat
  focus_area : Option String
  tech_stack : List String
  key_features : List String
  target_users : List String
  system_architecture : Option SystemArchitecture := none
  api_analysis : Option APIAnalysis := none
  technical_deep_dive : Option TechnicalDeepDive := none
  comprehensive_report : Option String := none

/-- Model of `datetime.isoformat()`: an injective textual rendering of the modelled
clock value. -/
def isoformat (t : Nat) : String :=
  toString t

/-- An optional string serialized the way `json.dumps` treats it: `null` for
Python `None`. -/
def jsonOfOptStr : Option String → Json
  | some s => .str s
  | none => .null

/-- The per-story dictionary built by `_format_json` (output_formatter.py
lines 158-171): criteria collapse to their description texts, enums render
by their canonical value, `created_at` by its iso form. -/
def storyToJson (story : UserStory) : Json :=
  .obj
    [ ("id", .num story.id)
    , ("title", story.title)
    , ("description", story.description)
    , ("acceptance_criteria", .arr (story.acceptance_criteria.map (fun c => .str c.description)))
    , ("priority", .str story.priority.value)
    , ("effort", .str story.effort.value)
    , ("tags", .arr story.tags)
    , ("created_at", .str (isoformat story.created_at)) ]

/-- Function `_format_json` from output_formatter.py (lines 100-173), modelled up to
the stdlib serialization: the source builds this dictionary and returns
`json.dumps(output_data, indent=2, ensure_ascii=False)`; `json.loads` of
that text recovers exactly this value (the stdlib round-trip contract for
string-keyed dictionaries of JSON values), so the renderer-then-parser
composition of the round-trip claim is the identity on this tree.  Key
order: the three base keys, then each optional enrichment slot in source
order when present. -/
def _format_json (result : AnalysisResult) : Json :=
  .obj
    ([ ("repository", Json.obj
        [ ("full_name", .str result.repository.full_name)
        , ("description", jsonOfOptStr result.repository.description)
        , ("language", jsonOfOptStr result.repository.language)
        , ("stars", .num result.repository.stars)
        , ("forks", .num result.repository.forks)
        , ("topics", .arr (result.repository.topics.map .str))
        , ("license", jsonOfOptStr result.repository.license)
        , ("created_at", .str (isoformat result.repository.created_at))
        , ("updated_at", .str (isoformat result.repository.updated_at)) ])
     , ("analysis", Json.obj
        [ ("date", .str (isoformat result.analysis_date))
        , ("focus_area", jsonOfOptStr result.focus_area)
        , ("tech_stack", .arr (result.tech_stack.map .str))
        , ("key_features", .arr (result.key_features.map .str))
        , ("target_users", .arr (result.target_users.map .str)) ])
     , ("user_stories", .arr (result.user_stories.map storyToJson)) ]
    ++ (match result.system_architecture with
        | some sa =>
          [ ("system_architecture", Json.obj
              [ ("system_diagram", .str sa.system_diagram)
              , ("api_flow_diagram", .str sa.api_flow_diagram)
              , ("data_flow_diagram", .str sa.data_flow_diagram)
              , ("component_diagram", .str sa.component_diagram)
              , ("deployment_diagram", jsonOfOptStr sa.deployment_diagram) ]) ]
        | none => [])
    ++ (match result.api_analysis with
        | some aa =>
          [ ("api_analysis", Json.obj
              [ ("endpoints", .arr aa.endpoints)
              , ("external_services", .arr (aa.external_services.map .str))
              , ("authentication_methods", .arr (aa.authentication_methods.map .str))
              , ("data_formats", .arr (aa.data_formats.map .str))
              , ("websocket_events", .arr (aa.websocket_events.map .str))
              , ("database_schemas", .arr (aa.database_schemas.map .str)) ]) ]
        | none => [])
    ++ (match result.technical_deep_dive with
        | some td =>
          [ ("technical_deep_dive", Json.obj
              [ ("technology_stack", td.technology_stack)
              , ("build_system", td.build_system)
              , ("testing_framework", td.testing_framework)
              , ("ci_cd_pipeline", td.ci_cd_pipeline)
              , ("deployment_strategy", td.deployment_strategy)
              , ("performance_optimizations", .arr (td.performance_optimizations.map .str))
              , ("security_features", .arr (td.security_features.map .str)) ]) ]
        | none => [])
    ++ (match result.comprehensive_report with
        | some r => [("comprehensive_report", Json.str r)]
        | none => []))

/-- Field access on a parsed interchange tree (what a consumer of
`json.loads` output does). -/
def Json.getKey (j : Json) (k : String) : Option Json :=
  match j with
  | .obj entries => entries.lookup k
  | _ => none

/-- C9: the interchange rendering of an `AnalysisResult` followed by a parse
of that text recovers the stories content identically — the `user_stories`
array has one entry per story in order, and each entry yields back the
story's id, title, description, acceptance-criteria description texts in
order, canonical priority/effort value strings, and tags.  (`json.loads`
after `json.dumps` returns this same tree by the stdlib contract; the
theorem checks the tree itself.) -/
theorem json_round_trip_recovers_stories (result : AnalysisResult) (i : Nat)
    (story : UserStory) (h : result.user_stories[i]? = some story) :
    ∃ entries entry,
      (_format_json result).getKey "user_stories" = some (.arr entries) ∧
      entries.length = result.user_stories.length ∧
      entries[i]? = some entry ∧
      entry.getKey "id" = some (.num story.id) ∧
      entry.getKey "title" = some story.title ∧
      entry.getKey "description" = some story.description ∧
      entry.getKey "acceptance_criteria"
        = some (.arr (story.acceptance_criteria.map (fun c => .str c.description))) ∧
      entry.getKey "priority" = some (.str story.priority.value) ∧
      entry.getKey "effort" = some (.str story.effort.value) ∧
      entry.getKey "tags" = some (.arr story.tags) := by
  refine ⟨result.user_stories.map storyToJson, storyToJson story,
    rfl, by simp, ?_, rfl, rfl, rfl, rfl, rfl, rfl, rfl⟩
  simp [List.getElem?_map, h]

/-- Concrete `AnalysisResult` used by the C9 witness. -/
def resultA : AnalysisResult :=
  { repository :=
      { full_name := "owner/repo"
        description := none
        language := none
        stars := 0
        forks := 0
        topics := []
        license := none
        created_at := 0
        updated_at := 0
        size := 0
        default_branch := "main" }
    user_stories := [storyA]
    analysis_date := 0
    focus_area := none
    tech_stack := []
    key_features := []
    target_users := [] }

/-- Witness for C9: the round trip at a concrete one-story result. -/
theorem json_round_trip_recovers_stories_witness :
    ∃ entries entry,
      (_format_json resultA).getKey "user_stories" = some (.arr entries) ∧
      entries.length = resultA.user_stories.length ∧
      entries[0]? = some entry ∧
      entry.getKey "id" = some (.num storyA.id) ∧
      entry.getKey "title" = some storyA.title ∧
      entry.getKey "description" = some storyA.description ∧
      entry.getKey "acceptance_criteria"
        = some (.arr (storyA.acceptance_criteria.map (fun c => .str c.description))) ∧
      entry.getKey "priority" = some (.str storyA.priority.value) ∧
      entry.getKey "effort" = some (.str storyA.effort.value) ∧
      entry.getKey "tags" = some (.arr storyA.tags) :=
  json_round_trip_recovers_stories resultA 0 storyA rfl
